import Mathlib

set_option maxRecDepth 8000

namespace B8W

/- Shallow embedding of the BASIC engine of the 8bitworkshop repository:
   the runtime class (src/src/common/basic/runtime.ts) and the parser
   (the compiler module bundled in the same source file).

   Modelling conventions.  JS numbers are exact rationals; the JS value
   NaN is a separate constructor of Value (typeof NaN is number in JS, and
   the embedding treats nan as numeric wherever the source checks typeof).
   The JS builtins parseFloat and Number-to-string conversion are taken as
   parameters (JSCtx) at exactly the call sites where the source invokes
   them.  Fragments of the source that no verified claim exercises
   (arrays, user DEF functions, PRINT, DIM, ON..GOTO, IF, string-number
   coercion inside arithmetic) are marked unmodeled below and mapped to a
   distinguished error value, never silently approximated. -/

/-- JS runtime values: number, string, or the special number NaN. -/
inductive Value where
  | num (q : ℚ)
  | str (s : String)
  | nan
deriving DecidableEq

/-- Abstraction of the JS builtins the runtime calls out to:
parseFloat (returning none where JS returns NaN) and number ToString. -/
structure JSCtx where
  pf : String → Option ℚ
  numToStr : ℚ → String

/-- List-level string prefix test (used so that concrete string
computations reduce inside the kernel). -/
def listPrefixOf : List Char → List Char → Bool
  | [], _ => true
  | _ :: _, [] => false
  | a :: as, b :: bs => a == b && listPrefixOf as bs

/-- Model of the JS String startsWith method. -/
def strStartsWith (s pre : String) : Bool := listPrefixOf pre.data s.data

/-- Model of the JS String substr(n) tail. -/
def strDrop (s : String) (n : ℕ) : String := String.mk (s.data.drop n)

/-- Model of the JS String toUpperCase method (ASCII fragment). -/
def jsUpper (s : String) : String := String.mk (s.data.map Char.toUpper)

/-- String length in characters. -/
def strLen (s : String) : ℕ := s.data.length

/- ===== valueToString, numeric branch (runtime.ts lines 196-224) ===== -/

/-- The precision-reduction loop of valueToString: with prec starting at
11, while the string is longer than 11 characters, replace it by
toPrecision at prec and decrement prec.  For real JS doubles the loop
always exits before prec reaches 0 (toPrecision(1) is at most 8
characters); the fuel-out branch returns the last string and corresponds
to the RangeError region JS cannot reach. -/
def trimPrec (toPrec : ℕ → String) : ℕ → String → String
  | 0, numstr => numstr
  | p + 1, numstr =>
      if strLen numstr > 11 then trimPrec toPrec p (toPrec (p + 1)) else numstr

/-- Lines 204-212 of valueToString: drop a leading zero before the
decimal point (also after a minus sign), then prepend a space for
non-negative representations and append the trailing space. -/
def formatTrimmed (numstr : String) : String :=
  let n2 := if strStartsWith numstr "0." then strDrop numstr 1
            else if strStartsWith numstr "-0." then "-" ++ strDrop numstr 2
            else numstr
  if strStartsWith n2 "-" then n2 ++ " " else " " ++ n2 ++ " "

/-- The numeric branch of valueToString.  jsToString is the string JS
toString returned for the number, toPrec its toPrecision method; the
source uppercases the toString result and then runs the trim loop and
the spacing fixup. -/
def valueToStringNum (jsToString : String) (toPrec : ℕ → String) : String :=
  formatTrimmed (trimPrec toPrec 11 (jsUpper jsToString))

/- ===== built-in FIX (runtime.ts lines 639-641) ===== -/

/-- checkNum turns Infinity and NaN into runtime errors; exact rationals
have neither, so on this domain it always succeeds. -/
def checkNumQ (q : ℚ) : Except String ℚ := .ok q

/-- The built-in function FIX: checkNum(arg - Math.floor(arg)). -/
def FIX (arg : ℚ) : Except String ℚ := checkNumQ (arg - (⌊arg⌋ : ℚ))

/- ===== runtime data model ===== -/

/-- The dialect options the runtime consults (a subset of BASICOptions:
only these two fields are read by the modelled runtime code paths). -/
structure Opts where
  defaultValues : Bool
  typeConvert : Bool
deriving DecidableEq

/-- Expressions.  A lookup is a bare variable (args null), an array
subscript or a function call; the runtime treats subscripts and calls as
outside the modelled fragment. -/
inductive Expr where
  | lit (v : Value)
  | lookup (name : String) (args : Option (List Expr))
  | binop (op : String) (l r : Expr)
  | unop (op : String) (e : Expr)

/-- IndOp: a variable reference, array subscript or call target, exactly
as the parser builds it (args is null for a bare variable). -/
structure IndOp where
  name : String
  args : Option (List Expr)

/-- Statements, keyed by command exactly as the source statement union.
PRINT, IF, DIM, DEF, ONGOTO and OPTION are not modelled (no verified
claim touches them). -/
inductive Stmt where
  | sLET (lexpr : IndOp) (rhs : Expr)
  | sFOR (lexpr : IndOp) (initial : Expr) (target : Expr) (step : Option Expr)
  | sNEXT (lexpr : Option Expr)
  | sGOTO (label : Expr)
  | sGOSUB (label : Expr)
  | sRETURN
  | sINPUT (prompt : Expr) (args : List IndOp)
  | sREAD (args : List IndOp)
  | sDATA (datums : List Expr)
  | sRESTORE
  | sEND
  | sSTOP

/-- One entry of the FOR-loop stack: the closure pushed by startForLoop
captures the loop variable name, the resumption pc (curpc at the time
startForLoop ran, i.e. the statement after the FOR), the target and the
step. -/
structure ForEntry where
  forname : String
  pc : ℕ
  targ : Value
  step : Value

/-- The mutable runtime state (the fields of class BASICRuntime).
allstmts, label2pc and datums are the tables load() builds; compiled
models the memoized compiled-closure slots (the set of statement indices
whose compileStatement has already run); inputRequests is a log of the
calls made to the input collaborator hook (prompt, nargs). -/
structure RState where
  allstmts : List Stmt
  label2pc : List (String × ℕ)
  datums : List Value
  opts : Opts
  curpc : ℕ
  dataptr : ℕ
  vars : List (String × Value)
  forLoops : List ForEntry
  returnStack : List ℕ
  column : ℕ
  running : Bool
  exited : Bool
  compiled : List ℕ
  inputRequests : List (String × ℕ)

/-- Runtime errors carry the message and the state at the throw (JS
mutations before a throw persist).  runtimeError decrements curpc before
throwing (undoing the curpc++ of step). -/
abbrev RExc (α : Type) : Type := Except (String × RState) α

def runtimeErrorE (msg : String) (s : RState) : RExc α :=
  .error (msg, { s with curpc := s.curpc - 1 })

/-- Error used for JS behaviour outside the modelled fragment; no
verified claim depends on a path that reaches it. -/
def unmodeledE (s : RState) : RExc α := .error ("unmodeled", s)

/-- Assignment into the vars object (JS property update). -/
def setVar : List (String × Value) → String → Value → List (String × Value)
  | [], k, v => [(k, v)]
  | (k', v') :: t, k, v =>
      if k' = k then (k, v) :: t else (k', v') :: setVar t k v

/-- Does a variable name denote a string variable (trailing dollar)? -/
def isDollarName (n : String) : Bool := n.data.getLast? == some '$'

/-- JS truthiness on our values: 0, NaN and the empty string are falsy. -/
def jsFalsy : Value → Bool
  | .num q => q == 0
  | .nan => true
  | .str s => s == ""

/-- JS ToString of a value (used for string concatenation and for the
input prompt). -/
def jsToStr (ctx : JSCtx) : Value → String
  | .str s => s
  | .num q => ctx.numToStr q
  | .nan => "NaN"

/-- The JS + operator on values (no checkNum: used by the raw
vars[forname] += step update in the NEXT closure). -/
def jsPlus (ctx : JSCtx) : Value → Value → Value
  | .num a, .num b => .num (a + b)
  | .nan, .num _ => .nan
  | .num _, .nan => .nan
  | .nan, .nan => .nan
  | .str a, .str b => .str (a ++ b)
  | .str a, v => .str (a ++ jsToStr ctx v)
  | v, .str b => .str (jsToStr ctx v ++ b)

/-- JS comparison a >= 0 for the step-direction test.  String operands
would be numerically coerced by JS; that path is outside the modelled
fragment and yields false here (no claim reaches it). -/
def jsGeZero : Value → Bool
  | .num q => 0 ≤ q
  | .nan => false
  | .str _ => false

/-- JS > on values; comparisons involving NaN are false in JS.  The
string-string lexicographic case is outside the modelled fragment. -/
def jsGtV : Value → Value → Bool
  | .num a, .num b => b < a
  | _, _ => false

/-- JS < on values; comparisons involving NaN are false in JS. -/
def jsLtV : Value → Value → Bool
  | .num a, .num b => a < b
  | _, _ => false

/- ===== runtime primitives (runtime.ts lines 175-381, 518-617) ===== -/

/-- gotoLabel: looks the label up in label2pc; a missing label is a fatal
runtime error.  (The pc >= 0 guard of the source is the definedness test;
stored pcs are never negative.) -/
def gotoLabel (lab : String) (s : RState) : RExc RState :=
  match List.lookup lab s.label2pc with
  | some pc => .ok { s with curpc := pc }
  | none =>
      runtimeErrorE ("I tried to go to the label " ++ lab ++ " but could not find it.") s

/-- gosubLabel: pushes the current pc on the return stack first, then
performs gotoLabel.  The head of the list models the top of the stack. -/
def gosubLabel (lab : String) (s : RState) : RExc RState :=
  gotoLabel lab { s with returnStack := s.curpc :: s.returnStack }

/-- returnFromGosub: pops the return stack, error if empty. -/
def returnFromGosub (s : RState) : RExc RState :=
  match s.returnStack with
  | [] => runtimeErrorE "I tried to RETURN, but there was not a corresponding GOSUB." s
  | pc :: rest => .ok { s with curpc := pc, returnStack := rest }

/-- nextDatum: errors when the data cursor is past the flattened literal
pool, otherwise yields the next datum and advances the cursor. -/
def nextDatum (s : RState) : RExc (Value × RState) :=
  match s.datums[s.dataptr]? with
  | some v => .ok (v, { s with dataptr := s.dataptr + 1 })
  | none => runtimeErrorE "I tried to READ, but ran out of data." s

/-- startForLoop: performs the initial assignment and pushes the loop
closure; a falsy step (absent, 0 or NaN) becomes 1.  There is no test of
the target here (the source TODO notes 0-iteration loops are not
supported). -/
def startForLoop (forname : String) (init targ : Value) (stp : Option Value)
    (s : RState) : RState :=
  let stepv := match stp with
    | none => Value.num 1
    | some v => if jsFalsy v then Value.num 1 else v
  { s with vars := setVar s.vars forname init,
           forLoops := ⟨forname, s.curpc, targ, stepv⟩ :: s.forLoops }

/-- The variable read inside the NEXT closure: a deleted or never-set
loop variable would read as undefined and the += would produce NaN. -/
def varOrNaN (s : RState) (n : String) : Value :=
  (List.lookup n s.vars).getD .nan

/-- nextForLoop: takes the innermost loop; a NEXT naming a different
variable is an error; otherwise the loop variable is incremented by step
and the loop is popped exactly when the new value passes the target
(greater than the target for step >= 0, less for negative step),
otherwise curpc is rewound to the pc saved by startForLoop. -/
def nextForLoop (ctx : JSCtx) (nname : Option String) (s : RState) : RExc RState :=
  match s.forLoops with
  | [] => runtimeErrorE "I could not find a FOR for this NEXT." s
  | fl :: rest =>
      if (match nname with | some n => n != fl.forname | none => false)
      then runtimeErrorE ("I executed NEXT " ++ nname.getD "" ++
             ", but the last FOR was for " ++ fl.forname ++ ".") s
      else
        let v := jsPlus ctx (varOrNaN s fl.forname) fl.step
        let s1 := { s with vars := setVar s.vars fl.forname v }
        let done := if jsGeZero fl.step then jsGtV v fl.targ else jsLtV v fl.targ
        if done then .ok { s1 with forLoops := rest }
        else .ok { s1 with curpc := fl.pc }

/-- convert: the type-conversion used by INPUT (and by assign when the
typeConvert dialect option is on).  A dollar-named target gets the JS
string coercion of the value; a numeric target keeps numbers (NaN
included, typeof NaN being number) and applies parseFloat to strings. -/
def convert (ctx : JSCtx) (name : String) (right : Value) : Value :=
  if isDollarName name then .str (jsToStr ctx right)
  else match right with
    | .num q => .num q
    | .nan => .nan
    | .str s => match ctx.pf s with
      | some q => .num q
      | none => .nan

/-- isValid: numbers other than NaN and strings are valid. -/
def isValidV : Value → Bool
  | .num _ => true
  | .nan => false
  | .str _ => true

/-- convertToString: a non-string is a fatal type error. -/
def convertToString (right : Value) (s : RState) : RExc Value :=
  match right with
  | .str x => .ok (.str x)
  | _ => runtimeErrorE "I cannot convert this value to a string." s

/-- convertToNumber: a string is a fatal type error; a number passes
through checkNum, which rejects NaN. -/
def convertToNumber (right : Value) (s : RState) : RExc Value :=
  match right with
  | .num q => .ok (.num q)
  | .nan => runtimeErrorE "I computed an invalid number." s
  | .str _ => runtimeErrorE "I cannot convert this value to a number." s

/-- assign: dispatches on the typeConvert option and on the dollar suffix
of the target name. -/
def assignV (ctx : JSCtx) (name : String) (right : Value) (s : RState) : RExc Value :=
  if s.opts.typeConvert then .ok (convert ctx name right)
  else if isDollarName name then convertToString right s
  else convertToNumber right s

/- ===== expression evaluation (expr2js with check:true) ===== -/

/-- checkValue on a variable read: an unset variable either takes the
dialect default or raises the unset-variable error; NaN passes (its
typeof is number). -/
def readVarChecked (name : String) (s : RState) : RExc Value :=
  match List.lookup name s.vars with
  | some v => .ok v
  | none =>
      if s.opts.defaultValues then
        .ok (if isDollarName name then .str "" else .num 0)
      else runtimeErrorE ("I did not find a value for " ++ name) s

/-- The named binary primitives (add, sub, mul, div and the integer
variants); every arithmetic result passes through checkNum, which turns
NaN into a fatal error.  String coercion inside arithmetic and the
relational/bitwise operators are outside the modelled fragment. -/
def binApply (op : String) (a b : Value) (s : RState) : RExc Value :=
  if op = "add" then
    match a, b with
    | .num x, .num y => .ok (.num (x + y))
    | .str x, .str y => .ok (.str (x ++ y))
    | .num _, .nan => runtimeErrorE "I computed an invalid number." s
    | .nan, .num _ => runtimeErrorE "I computed an invalid number." s
    | .nan, .nan => runtimeErrorE "I computed an invalid number." s
    | _, _ => unmodeledE s
  else if op = "sub" then
    match a, b with
    | .num x, .num y => .ok (.num (x - y))
    | .num _, .nan => runtimeErrorE "I computed an invalid number." s
    | .nan, .num _ => runtimeErrorE "I computed an invalid number." s
    | .nan, .nan => runtimeErrorE "I computed an invalid number." s
    | _, _ => unmodeledE s
  else if op = "mul" then
    match a, b with
    | .num x, .num y => .ok (.num (x * y))
    | .num _, .nan => runtimeErrorE "I computed an invalid number." s
    | .nan, .num _ => runtimeErrorE "I computed an invalid number." s
    | .nan, .nan => runtimeErrorE "I computed an invalid number." s
    | _, _ => unmodeledE s
  else if op = "div" then
    match a, b with
    | .num x, .num y =>
        if y = 0 then runtimeErrorE "I cannot divide by zero." s
        else .ok (.num (x / y))
    | .num _, .nan => runtimeErrorE "I computed an invalid number." s
    | .nan, .num y =>
        if y = 0 then runtimeErrorE "I cannot divide by zero." s
        else runtimeErrorE "I computed an invalid number." s
    | .nan, .nan => runtimeErrorE "I computed an invalid number." s
    | _, _ => unmodeledE s
  else unmodeledE s

/-- The unary primitives neg (plain JS negation, no checkNum) and lnot
(truthiness test). -/
def unApply (op : String) (a : Value) (s : RState) : RExc Value :=
  if op = "neg" then
    match a with
    | .num q => .ok (.num (-q))
    | .nan => .ok .nan
    | .str _ => unmodeledE s
  else if op = "lnot" then
    .ok (.num (if jsFalsy a then 1 else 0))
  else unmodeledE s

/-- Expression evaluation under check:true (every variable read is
wrapped in checkValue).  A lookup carrying arguments is a function call
or an array subscript, outside the modelled fragment. -/
def evalExpr (s : RState) : Expr → RExc Value
  | .lit v => .ok v
  | .lookup name args =>
      match args with
      | some _ => unmodeledE s
      | none => readVarChecked name s
  | .binop op l r => do
      let a ← evalExpr s l
      let b ← evalExpr s r
      binApply op a b s
  | .unop op e => do
      let a ← evalExpr s e
      unApply op a s

/- ===== statement execution (the compiled closures) ===== -/

/-- The loop-variable name the NEXT closure receives: do__NEXT passes
stmt.lexpr && stmt.lexpr.name, undefined when there is no lexpr (or when
the parsed expression is not a lookup). -/
def nextNameOf : Option Expr → Option String
  | some (.lookup n _) => some n
  | _ => none

/-- READ: assigns the next datum to each target in order, applying the
same assign coercion as LET. -/
def readArgs (ctx : JSCtx) : List IndOp → RState → RExc RState
  | [], s => .ok s
  | a :: rest, s =>
      match a.args with
      | some _ => unmodeledE s
      | none => do
          let (v, s1) ← nextDatum s
          let av ← assignV ctx a.name v s1
          readArgs ctx rest { s1 with vars := setVar s1.vars a.name av }

/-- The run-time effect of each compiled statement closure.  sDATA and
sRESTORE compile to no code at all: do__DATA is an intentional no-op
(data is flattened at load time) and do__RESTORE resets dataptr inside
compileStatement itself and returns undefined, so its cached closure does
nothing at execution time (see compileStatement below). -/
def executeStmt (ctx : JSCtx) (stmt : Stmt) (s : RState) : RExc RState :=
  match stmt with
  | .sLET lexpr rhs =>
      match lexpr.args with
      | some _ => unmodeledE s
      | none => do
          let v ← evalExpr s rhs
          let a ← assignV ctx lexpr.name v s
          .ok { s with vars := setVar s.vars lexpr.name a }
  | .sFOR lexpr initE targE stepE => do
      let i ← evalExpr s initE
      let t ← evalExpr s targE
      let stp ← match stepE with
        | some e => do
            let v ← evalExpr s e
            pure (some v)
        | none => pure none
      .ok (startForLoop lexpr.name i t stp s)
  | .sNEXT lexpr => nextForLoop ctx (nextNameOf lexpr) s
  | .sGOTO label => do
      let v ← evalExpr s label
      match v with
      | .str lab => gotoLabel lab s
      | _ => unmodeledE s
  | .sGOSUB label => do
      let v ← evalExpr s label
      match v with
      | .str lab => gosubLabel lab s
      | _ => unmodeledE s
  | .sRETURN => returnFromGosub s
  | .sINPUT prompt args => do
      let pv ← evalExpr s prompt
      .ok { s with running := false,
                   inputRequests := s.inputRequests ++ [(jsToStr ctx pv, args.length)] }
  | .sREAD args => readArgs ctx args s
  | .sDATA _ => .ok s
  | .sRESTORE => .ok s
  | .sEND => .ok { s with curpc := s.allstmts.length }
  | .sSTOP => .ok { s with curpc := s.allstmts.length }

/-- compileStatement: memoized per statement instance (modelled by the
statement index pc).  Building the code text for do__RESTORE executes
this.dataptr = 0 as a side effect of compilation (the method performs the
assignment and returns undefined instead of returning code), so the reset
happens here, at most once per statement instance. -/
def compileStatement (pc : ℕ) (stmt : Stmt) (s : RState) : RState :=
  if pc ∈ s.compiled then s
  else
    let s1 := match stmt with
      | .sRESTORE => { s with dataptr := 0 }
      | _ => s
    { s1 with compiled := pc :: s1.compiled }

/-- step(): fetch the statement at curpc (returning false and exiting
when absent, or returning false immediately when not running), advance
curpc, compile (unless cached) and execute, and return the running flag. -/
def step (ctx : JSCtx) (s : RState) : RExc (Bool × RState) :=
  if s.running = false then .ok (false, s)
  else
    match s.allstmts[s.curpc]? with
    | none => .ok (false, { s with running := false, exited := true })
    | some stmt =>
        let s1 := { s with curpc := s.curpc + 1 }
        let s2 := compileStatement s.curpc stmt s1
        match executeStmt ctx stmt s2 with
        | .ok s3 => .ok (s3.running, s3)
        | .error e => .error e

/-- n invocations of step by the external driver (a step on a stopped
runtime is a no-op returning false, as in the source). -/
def stepN (ctx : JSCtx) : ℕ → RState → RExc RState
  | 0, s => .ok s
  | n + 1, s =>
      match step ctx s with
      | .ok (_, s') => stepN ctx n s'
      | .error e => .error e

/- ===== the INPUT continuation (do__INPUT, lines 394-409) ===== -/

/-- The per-argument body of the INPUT continuation: assigns
convert(name, vals[index]) to each target (the assignment happens even
when the value is invalid) and accumulates the validity flag.  A missing
vals entry is JS undefined, which stringifies to "undefined" inside
convert. -/
def inputAssigns (ctx : JSCtx) : List IndOp → List String → ℕ → Bool → RState →
    RExc (Bool × RState)
  | [], _, _, valid, s => .ok (valid, s)
  | a :: rest, vals, idx, valid, s =>
      match a.args with
      | some _ => unmodeledE s
      | none =>
          let raw := (vals[idx]?).getD "undefined"
          let v := convert ctx a.name (.str raw)
          inputAssigns ctx rest vals (idx + 1) (valid && isValidV v)
            { s with vars := setVar s.vars a.name v }

/-- The promise continuation of do__INPUT: performs the assignments,
rewinds curpc by one when any coercion was invalid, sets running back on
and (via the resume hook, a host no-op here) asks the host to continue. -/
def resolveInput (ctx : JSCtx) (args : List IndOp) (vals : List String)
    (s : RState) : RExc RState := do
  let (valid, s1) ← inputAssigns ctx args vals 0 true s
  let s2 := if valid then s1 else { s1 with curpc := s1.curpc - 1 }
  .ok { s2 with running := true }

/-- The validity predicate accumulated by the INPUT continuation: every
supplied value must coerce to something isValid accepts. -/
def inputAllValid (ctx : JSCtx) : List IndOp → List String → ℕ → Bool
  | [], _, _ => true
  | a :: rest, vals, idx =>
      isValidV (convert ctx a.name (.str ((vals[idx]?).getD "undefined"))) &&
      inputAllValid ctx rest vals (idx + 1)

/- ===== concrete machinery for the verified claims ===== -/

/- The core Rat operations are irreducible by default; unseal them so
that concrete runs evaluate inside the kernel. -/
attribute [local semireducible] Rat.add Rat.mul Rat.sub Rat.inv

/-- Kernel-reducible digit-string parser used to instantiate the
parseFloat parameter for concrete runs. -/
def digitsToNat : ℕ → List Char → Option ℕ
  | acc, [] => some acc
  | acc, c :: cs =>
      if c.isDigit then digitsToNat (acc * 10 + (c.toNat - 48)) cs else none

/-- A concrete JSCtx: parseFloat succeeds exactly on plain decimal
numerals (the only value shapes the concrete programs feed it). -/
def ctx0 : JSCtx :=
  ⟨fun s => match s.data with
    | [] => none
    | l => (digitsToNat 0 l).map (fun n => (n : ℚ)),
   fun _ => ""⟩

/-- The state reset() establishes, combined with the tables load()
builds for a given program: flattened statement list, label table and
flattened DATA literal pool. -/
def initState (stmts : List Stmt) (datums : List Value)
    (l2pc : List (String × ℕ)) : RState :=
  { allstmts := stmts, label2pc := l2pc, datums := datums,
    opts := ⟨false, false⟩, curpc := 0, dataptr := 0, vars := [],
    forLoops := [], returnStack := [], column := 0, running := true,
    exited := false, compiled := [], inputRequests := [] }

/-- Observer: the value of a variable after a run. -/
def obsVar (r : RExc RState) (n : String) : Option Value :=
  match r with
  | .ok s => List.lookup n s.vars
  | .error _ => none

/-- Observer: the program counter after a run. -/
def obsPC (r : RExc RState) : Option ℕ :=
  match r with
  | .ok s => some s.curpc
  | .error _ => none

/-- Observer: the DATA cursor after a run. -/
def obsDataptr (r : RExc RState) : Option ℕ :=
  match r with
  | .ok s => some s.dataptr
  | .error _ => none

/-- Observer: the FOR-loop stack depth after a run. -/
def obsForDepth (r : RExc RState) : Option ℕ :=
  match r with
  | .ok s => some s.forLoops.length
  | .error _ => none

/-- Observer: the boolean a single step returned. -/
def obsStepBool (r : RExc (Bool × RState)) : Option Bool :=
  match r with
  | .ok (b, _) => some b
  | .error _ => none

/-- 10 DATA 1,2,3 / 20 READ A / 30 RESTORE / 40 READ B / 50 GOTO 30,
after load() has flattened the DATA literals (the DATA statement itself
contributes no executable statement here; the literal pool and the label
table are given to initState directly, and the executable statements are
READ A; RESTORE; READ B; GOTO 30 at pcs 0..3). -/
def prog1 : List Stmt :=
  [.sREAD [⟨"A", none⟩],
   .sRESTORE,
   .sREAD [⟨"B", none⟩],
   .sGOTO (.lit (.str "30"))]

def st1 : RState := initState prog1 [.num 1, .num 2, .num 3] [("30", 1)]

/-- LET S=0 / FOR I=1 TO 3 / LET S=S*10+I / NEXT I at pcs 0..3. -/
def prog3 : List Stmt :=
  [.sLET ⟨"S", none⟩ (.lit (.num 0)),
   .sFOR ⟨"I", none⟩ (.lit (.num 1)) (.lit (.num 3)) none,
   .sLET ⟨"S", none⟩
     (.binop "add" (.binop "mul" (.lookup "S" none) (.lit (.num 10)))
       (.lookup "I" none)),
   .sNEXT (some (.lookup "I" none))]

def st3 : RState := initState prog3 [] []

/-- A single INPUT statement awaiting one value for numeric variable A. -/
def prog4 : List Stmt := [.sINPUT (.lit (.str "?")) [⟨"A", none⟩]]

def st4 : RState := initState prog4 [] []

/-- LET C=0 / FOR I=5 TO 1 / LET C=C+1 / NEXT I at pcs 0..3 (the FOR
starts past its target). -/
def prog8 : List Stmt :=
  [.sLET ⟨"C", none⟩ (.lit (.num 0)),
   .sFOR ⟨"I", none⟩ (.lit (.num 5)) (.lit (.num 1)) none,
   .sLET ⟨"C", none⟩ (.binop "add" (.lookup "C" none) (.lit (.num 1))),
   .sNEXT (some (.lookup "I" none))]

def st8 : RState := initState prog8 [] []

/-- A GOSUB to a label that is not in the label table. -/
def st9 : RState := initState [.sGOSUB (.lit (.str "99"))] [] []

/- ===== the parser (the compiler module of the same source file) ===== -/

/-- Token kinds, one per capture group of the lexer pattern. -/
inductive TokenType where
  | EOL
  | Float1
  | Float2
  | Int
  | Remark
  | Ident
  | String
  | Relational
  | Operator
  | CatchAll
deriving DecidableEq

/-- A lexed token (source locations are tracked per line by lineno). -/
structure Token where
  str : String
  type : TokenType
deriving DecidableEq

/-- The operator table: name, runtime primitive, precedence. -/
def OPERATORS : List (String × String × ℤ) :=
  [("OR", ("bor", 7)),
   ("AND", ("band", 8)),
   ("=", ("eq", 50)),
   ("<>", ("ne", 50)),
   ("<", ("lt", 50)),
   (">", ("gt", 50)),
   ("<=", ("le", 50)),
   (">=", ("ge", 50)),
   ("+", ("add", 100)),
   ("-", ("sub", 100)),
   ("%", ("mod", 140)),
   ("\\", ("idiv", 150)),
   ("*", ("mul", 200)),
   ("/", ("div", 200)),
   ("^", ("pow", 300))]

def getOperator (op : String) : Option (String × ℤ) :=
  List.lookup op OPERATORS

/-- Precedence of the lookahead token: operators, relational tokens and
identifiers are looked up in the table; everything else (and unknown
strings) gets -1. -/
def getPrecedence (tok : Token) : ℤ :=
  match tok.type with
  | .Operator | .Relational | .Ident =>
      match getOperator tok.str with
      | some op => op.2
      | none => -1
  | _ => -1

/-- The runtime primitive name of an operator (defined whenever its
precedence is non-negative). -/
def opFname (op : String) : String :=
  match getOperator op with
  | some o => o.1
  | none => "?"

/-- Is the token an end of statement marker (end of line or colon)? -/
def isEOS (tok : Token) : Bool :=
  tok.type == .EOL || (tok.type == .Operator && tok.str == ":")

def stripQuotes (s : String) : String := String.mk ((s.data.drop 1).dropLast)

/-- The dialect options the parser consults on the modelled paths. -/
structure POpts where
  tickComments : Bool
  validKeywords : Option (List String)
  validOperators : Option (List String)

/-- The mutable parser object state: the token queue of the current
line, the line counter, the declared-label table (the source stores
label to line-object; only definedness is consulted), the referenced
targets, the collected errors and the current label.  The refs/decls
maps of the source feed only the disabled checkUnsetVars pass and are
not modelled. -/
structure PState where
  tokens : List Token
  lineno : ℕ
  labels : List String
  targets : List String
  errors : List (ℕ × String)
  curlabel : Option String
  opts : POpts

/-- Parser results: a CompileError throw carries the mutated state (JS
state changes before a throw persist). -/
inductive PRes (α : Type) where
  | ok (a : α) (s : PState)
  | err (msg : String) (s : PState)

def PM (α : Type) : Type := PState → PRes α

def PM.pure (a : α) : PM α := fun s => .ok a s

def PM.bind (m : PM α) (f : α → PM β) : PM β := fun s =>
  match m s with
  | .ok a s1 => f a s1
  | .err e s1 => .err e s1

instance : Monad PM where
  pure := PM.pure
  bind := PM.bind

def getPS : PM PState := fun s => .ok s s

def modifyPS (f : PState → PState) : PM Unit := fun s => .ok () (f s)

/-- The end-of-line pseudo token consumeToken falls back to. -/
def eolTok : Token := ⟨"", .EOL⟩

def consumeToken : PM Token := fun s =>
  match s.tokens with
  | [] => .ok eolTok s
  | t :: ts => .ok t { s with tokens := ts }

def peekToken : PM Token := fun s => .ok (s.tokens.headD eolTok) s

def pushbackToken (t : Token) : PM Unit := fun s =>
  .ok () { s with tokens := t :: s.tokens }

/-- compileError: record the error against the current line, then throw. -/
def compileErrorP (msg : String) : PM α := fun s =>
  .err msg { s with errors := s.errors ++ [(s.lineno, msg)] }

def dialectErrorP (what : String) : PM α :=
  compileErrorP ("The selected BASIC dialect does not support " ++ what ++ ".")

def expectToken (str : String) : PM Token := do
  let tok ← consumeToken
  if tok.str ≠ str then
    compileErrorP ("There should be a \"" ++ str ++ "\" here.")
  else pure tok

/-- parseNumber: parseFloat on the numeral text (NaN is a compile
error).  The verified claims only parse plain integer numerals, which
are modelled exactly; other numeral shapes take the error branch. -/
def parseNumberP (str : String) : PM ℚ := fun s =>
  match str.data with
  | [] => (compileErrorP ("The number " ++ str ++
      " is not a valid floating-point number.") : PM ℚ) s
  | l =>
      match digitsToNat 0 l with
      | some n => .ok (n : ℚ) s
      | none => (compileErrorP ("The number " ++ str ++
          " is not a valid floating-point number.") : PM ℚ) s

/-- Fuel exhaustion marker (the loops of the source always terminate
because every iteration consumes tokens; theorems use ample fuel and
never reach this branch). -/
def outOfFuel : PM α := compileErrorP "recursion limit"

/-- parseLabel: an integer token, normalized through parseInt and
recorded as a referenced target, becoming a string literal. -/
def natLabel (str : String) : String := toString ((digitsToNat 0 str.data).getD 0)

def parseLabelP : PM Expr := do
  let tok ← consumeToken
  match tok.type with
  | .Int => do
      let _ ← modifyPS (fun s => { s with targets := s.targets ++ [natLabel tok.str] })
      pure (Expr.lit (.str (natLabel tok.str)))
  | _ => compileErrorP "There should be a line number here."

/-- The mutually recursive expression-parser routines, stratified by
fuel: the record at fuel n+1 implements one call layer, delegating every
recursive call (loop iteration, parenthesized subexpression, argument
list) to the record at fuel n. -/
structure EParsers where
  primary : PM Expr
  expr1 : Expr → ℤ → PM Expr
  inner : Expr → ℤ → PM Expr
  expr : PM Expr
  exprList : PM (List Expr)
  varOrIndexed : PM IndOp
  lexprList : PM (List IndOp)

def eparseAt : ℕ → EParsers
  | 0 =>
      ⟨outOfFuel, fun _ _ => outOfFuel, fun _ _ => outOfFuel, outOfFuel,
       outOfFuel, outOfFuel, outOfFuel⟩
  | fuel + 1 =>
      let P := eparseAt fuel
      { -- parsePrimary: literals, NOT, parenthesized expressions, unary
        -- minus and plus, and variable/array/function lookups.  A
        -- non-prefix operator falls through to the incomplete-expression
        -- error exactly as the source switch does.
        primary := do
          let tok ← consumeToken
          match tok.type with
          | .Int | .Float1 | .Float2 => do
              let n ← parseNumberP tok.str
              pure (Expr.lit (.num n))
          | .String => pure (Expr.lit (.str (stripQuotes tok.str)))
          | .Ident =>
              if tok.str = "NOT" then do
                let e ← P.primary
                pure (Expr.unop "lnot" e)
              else do
                let _ ← pushbackToken tok
                let v ← P.varOrIndexed
                pure (Expr.lookup v.name v.args)
          | .Operator =>
              if tok.str = "(" then do
                let e ← P.expr
                let _ ← expectToken ")"
                pure e
              else if tok.str = "-" then do
                let e ← P.primary
                pure (Expr.unop "neg" e)
              else if tok.str = "+" then P.primary
              else compileErrorP "The expression is incomplete."
          | .EOL => compileErrorP "The expression is incomplete."
          | _ => compileErrorP ("There was an unexpected \"" ++ tok.str ++
              "\" in this expression."),
        -- parseExpr1: the precedence-climbing loop.  The outer while
        -- runs while the lookahead precedence is at least minPred; the
        -- inner while recurses while the lookahead precedence is
        -- strictly greater than the consumed operator precedence.
        expr1 := fun left minPred => do
          let look ← peekToken
          if getPrecedence look ≥ minPred then do
            let op ← consumeToken
            let s ← getPS
            let _ ← (match s.opts.validOperators with
              | some vops =>
                  if vops.contains op.str then (pure () : PM Unit)
                  else dialectErrorP ("the \"" ++ op.str ++ "\" operator")
              | none => (pure () : PM Unit))
            let right0 ← P.primary
            let right ← P.inner right0 (getPrecedence op)
            P.expr1 (Expr.binop (opFname op.str) left right) minPred
          else pure left,
        inner := fun right opPrec => do
          let look ← peekToken
          if getPrecedence look > opPrec then do
            let r ← P.expr1 right (getPrecedence look)
            P.inner r opPrec
          else pure right,
        expr := do
          let p ← P.primary
          P.expr1 p 0,
        -- parseList(parseExpr, comma)
        exprList := do
          let el ← P.expr
          let sep ← consumeToken
          if sep.str = "," then do
            let rest ← P.exprList
            pure (el :: rest)
          else do
            let _ ← pushbackToken sep
            pure [el],
        varOrIndexed := do
          let tok ← consumeToken
          match tok.type with
          | .Ident => do
              let p ← peekToken
              if p.str = "(" then do
                let _ ← expectToken "("
                let args ← P.exprList
                let _ ← expectToken ")"
                pure ⟨tok.str, some args⟩
              else pure ⟨tok.str, none⟩
          | _ => compileErrorP "Expected variable or array index",
        -- parseList(parseVarOrIndexed, comma)
        lexprList := do
          let el ← P.varOrIndexed
          let sep ← consumeToken
          if sep.str = "," then do
            let rest ← P.lexprList
            pure (el :: rest)
          else do
            let _ ← pushbackToken sep
            pure [el] }

def parsePrimaryF (fuel : ℕ) : PM Expr := (eparseAt fuel).primary
def parseExprF (fuel : ℕ) : PM Expr := (eparseAt fuel).expr
def parseExprListF (fuel : ℕ) : PM (List Expr) := (eparseAt fuel).exprList
def parseVarOrIndexedF (fuel : ℕ) : PM IndOp := (eparseAt fuel).varOrIndexed
def parseLexprListF (fuel : ℕ) : PM (List IndOp) := (eparseAt fuel).lexprList

/-- The REM loop: consume tokens to the end of the line. -/
def skipRemF : ℕ → PM Unit
  | 0 => outOfFuel
  | fuel + 1 => do
      let t ← consumeToken
      if t.type = .EOL then pure () else skipRemF fuel

/- The per-command statement routines of the modelled fragment. -/

def stmtLET (fuel : ℕ) : PM Stmt := do
  let lexpr ← parseVarOrIndexedF fuel
  let _ ← expectToken "="
  let right ← parseExprF fuel
  pure (.sLET lexpr right)

def stmtGOTO : PM Stmt := do
  let l ← parseLabelP
  pure (.sGOTO l)

def stmtGOSUB : PM Stmt := do
  let l ← parseLabelP
  pure (.sGOSUB l)

def stmtFOR (fuel : ℕ) : PM Stmt := do
  let lexpr ← parseVarOrIndexedF fuel
  let _ ← expectToken "="
  let init ← parseExprF fuel
  let _ ← expectToken "TO"
  let targ ← parseExprF fuel
  let p ← peekToken
  if p.str = "STEP" then do
    let _ ← consumeToken
    let stp ← parseExprF fuel
    pure (.sFOR lexpr init targ (some stp))
  else pure (.sFOR lexpr init targ none)

def stmtNEXT (fuel : ℕ) : PM Stmt := do
  let p ← peekToken
  if isEOS p then pure (.sNEXT none)
  else do
    let l ← parseExprF fuel
    pure (.sNEXT (some l))

def stmtREAD (fuel : ℕ) : PM Stmt := do
  let args ← parseLexprListF fuel
  pure (.sREAD args)

def stmtDATA (fuel : ℕ) : PM Stmt := do
  let datums ← parseExprListF fuel
  pure (.sDATA datums)

/-- The prompt handling of stmt__INPUT: a leading string token is the
prompt (followed by a mandatory semicolon), otherwise the prompt is
empty and the token is pushed back. -/
def promptString (prompt : Token) : PM String :=
  if prompt.type = .String then do
    let _ ← expectToken ";"
    pure (stripQuotes prompt.str)
  else do
    let _ ← pushbackToken prompt
    pure ""

def stmtINPUT (fuel : ℕ) : PM Stmt := do
  let prompt ← consumeToken
  let promptstr ← promptString prompt
  let args ← parseLexprListF fuel
  pure (.sINPUT (.lit (.str promptstr)) args)

/-- The stmt__ routines of the modelled command set.  PRINT, IF, DIM,
DEF, ON and OPTION also have stmt__ handlers in the source; they are
outside the modelled fragment and no verified claim parses them. -/
def dispatchStmt (fuel : ℕ) (cmd : String) : Option (PM Stmt) :=
  if cmd = "LET" then some (stmtLET fuel)
  else if cmd = "GOTO" then some stmtGOTO
  else if cmd = "GOSUB" then some stmtGOSUB
  else if cmd = "FOR" then some (stmtFOR fuel)
  else if cmd = "NEXT" then some (stmtNEXT fuel)
  else if cmd = "READ" then some (stmtREAD fuel)
  else if cmd = "DATA" then some (stmtDATA fuel)
  else if cmd = "INPUT" then some (stmtINPUT fuel)
  else if cmd = "RESTORE" then some (pure .sRESTORE)
  else if cmd = "RETURN" then some (pure .sRETURN)
  else if cmd = "END" then some (pure .sEND)
  else if cmd = "STOP" then some (pure .sSTOP)
  else none

/-- The two-token forms GO TO and GO SUB fold into GOTO and GOSUB. -/
def foldGoCommand (cmdtok p0 : Token) : PM String :=
  if cmdtok.str = "GO" ∧ p0.str = "TO" then do
    let _ ← consumeToken
    pure "GOTO"
  else if cmdtok.str = "GO" ∧ p0.str = "SUB" then do
    let _ ← consumeToken
    pure "GOSUB"
  else pure cmdtok.str

/-- parseStatement: dispatch the leading token - tick remarks, REM,
GO TO / GO SUB folding, a known command (subject to the keyword
whitelist), implicit LET when an identifier is followed by an equals
sign or an opening parenthesis, otherwise the there-should-be-a-command
error (also for a leading end of line or any other token kind). -/
def parseStatementF (fuel : ℕ) : PM (Option Stmt) := do
  let cmdtok ← consumeToken
  match cmdtok.type with
  | .Remark => do
      let s ← getPS
      if !s.opts.tickComments then dialectErrorP "tick remarks"
      else pure none
  | .Ident =>
      if cmdtok.str = "REM" then do
        let _ ← skipRemF fuel
        pure none
      else do
        let p0 ← peekToken
        let cmd ← foldGoCommand cmdtok p0
        match dispatchStmt fuel cmd with
        | some fn => do
            let s ← getPS
            let _ ← (match s.opts.validKeywords with
              | some kws =>
                  if kws.contains cmd then (pure () : PM Unit)
                  else dialectErrorP ("the " ++ cmd ++ " keyword")
              | none => (pure () : PM Unit))
            let st ← fn
            pure (some st)
        | none => do
            let p ← peekToken
            if p.str = "=" ∨ p.str = "(" then do
              let _ ← pushbackToken cmdtok
              let st ← stmtLET fuel
              pure (some st)
            else compileErrorP "There should be a command here."
  | _ => compileErrorP "There should be a command here."

/-- parseList(parseStatement, colon): null statements (REM) are not
collected. -/
def parseStmtListF : ℕ → PM (List Stmt)
  | 0 => outOfFuel
  | fuel + 1 => do
      let el ← parseStatementF fuel
      let sep ← consumeToken
      if sep.str = ":" then do
        let rest ← parseStmtListF fuel
        pure (match el with | some st => st :: rest | none => rest)
      else do
        let _ ← pushbackToken sep
        pure (match el with | some st => [st] | none => [])

/-- parseCompoundStatement: the colon-separated list must be followed by
an end of statement. -/
def parseCompoundF (fuel : ℕ) : PM (List Stmt) := do
  let list ← parseStmtListF fuel
  let p ← peekToken
  if !(isEOS p) then compileErrorP "Expected end of line or colon"
  else pure list

/-- A parsed line: the optional numeric label and its statements. -/
structure BLine where
  label : Option String
  stmts : List Stmt

/-- parseOptLabel: a leading integer token declares a label; a
duplicate declaration is a compile error raised before anything is
recorded, otherwise the label is recorded and returned; any other
leading token is pushed back. -/
def parseOptLabelP : PM (Option String) := do
  let tok ← consumeToken
  match tok.type with
  | .Int => do
      let s ← getPS
      if s.labels.contains tok.str then
        compileErrorP ("There is a duplicated label \"" ++ tok.str ++ "\".")
      else do
        let _ ← modifyPS (fun s0 =>
          { s0 with labels := s0.labels ++ [tok.str], curlabel := some tok.str })
        pure (some tok.str)
  | _ => do
      let _ ← pushbackToken tok
      pure none

/-- parse(): an empty line yields an empty statement list; otherwise the
optional label then the compound statement. -/
def parseLineBody (fuel : ℕ) : PM BLine := do
  let s ← getPS
  if s.tokens.isEmpty then pure ⟨none, []⟩
  else do
    let lab ← parseOptLabelP
    let stmts ← parseCompoundF fuel
    let _ ← modifyPS (fun s0 => { s0 with curlabel := none })
    pure ⟨lab, stmts⟩

/-- tokenize (modelled as installing the pre-lexed token list and
bumping lineno) followed by parseLine: a CompileError is caught and the
line becomes an empty statement list with no label, parsing state
(including the recorded error) retained. -/
def parseLineTok (fuel : ℕ) (toks : List Token) (s : PState) : PState × BLine :=
  let s1 := { s with tokens := toks, lineno := s.lineno + 1 }
  match parseLineBody fuel s1 with
  | .ok line s2 => (s2, line)
  | .err _ s2 => (s2, ⟨none, []⟩)

/-- The line loop of parseFile. -/
def parseLinesAcc (fuel : ℕ) : List (List Token) → PState → PState × List BLine
  | [], s => (s, [])
  | l :: ls, s =>
      let r1 := parseLineTok fuel l s
      let r2 := parseLinesAcc fuel ls r1.1
      (r2.1, r1.2 :: r2.2)

/-- checkLabels: every referenced target must be a declared label. -/
def checkLabelsGo : List String → PM Unit
  | [] => pure ()
  | t :: ts => fun s =>
      if s.labels.contains t then checkLabelsGo ts s
      else (compileErrorP ("There is not a line number " ++ t ++ ".") : PM Unit) s

/-- parseFile: parse every line, then run the whole-program label
validation pass. -/
def parseFileTok (fuel : ℕ) (lines : List (List Token)) (s : PState) :
    PRes (List BLine) :=
  let r := parseLinesAcc fuel lines s
  match checkLabelsGo r.1.targets r.1 with
  | .ok _ s2 => .ok r.2 s2
  | .err e s2 => .err e s2

/-- The default parser options are the permissive ALTAIR dialect (no
keyword or operator whitelist, no tick comments). -/
def pstate0 : PState :=
  ⟨[], 0, [], [], [], none, ⟨false, none, none⟩⟩

def tInt (s : String) : Token := ⟨s, .Int⟩
def tId (s : String) : Token := ⟨s, .Ident⟩
def tOp (s : String) : Token := ⟨s, .Operator⟩

/-- Run the expression parser on a token list (the entry point
parseExpr uses). -/
def parseExprTop (fuel : ℕ) (toks : List Token) : PRes Expr :=
  parseExprF fuel { pstate0 with tokens := toks }

def obsExpr (r : PRes Expr) : Option Expr :=
  match r with
  | .ok e _ => some e
  | .err _ _ => none

/-- The state a parser computation leaves behind, throw or no throw. -/
def resPS : PRes α → PState
  | .ok _ s => s
  | .err _ s => s

/-- The computation leaves the declared-label table unchanged (true of
every parser routine except parseOptLabel, the only writer). -/
def PLabelsEq (m : PM α) : Prop := ∀ s, (resPS (m s)).labels = s.labels

/-- The duplicate-label compile error message. -/
def dupMsg (L : String) : String := "There is a duplicated label \"" ++ L ++ "\"."

/-- The token lines of 10 RESTORE / 10 RETURN / 20 END. -/
def progDup : List (List Token) :=
  [[tInt "10", tId "RESTORE"], [tInt "10", tId "RETURN"], [tInt "20", tId "END"]]

def obsPLines (r : PRes (List BLine)) : Option (List (Option String × List Stmt)) :=
  match r with
  | .ok bs _ => some (bs.map (fun (b : BLine) => (b.label, b.stmts)))
  | .err _ _ => none

def obsPErrors (r : PRes (List BLine)) : List (ℕ × String) := (resPS r).errors

/- ===== helper lemmas ===== -/

@[simp] theorem rexc_pure (a : α) : (pure a : RExc α) = Except.ok a := rfl

@[simp] theorem rexc_bind_ok (a : α) (f : α → RExc β) :
    (Bind.bind (Except.ok a : RExc α) f) = f a := rfl

@[simp] theorem rexc_bind_err (e : String × RState) (f : α → RExc β) :
    (Bind.bind (Except.error e : RExc α) f) = Except.error e := rfl

/-- step on a stopped runtime returns false and changes nothing. -/
theorem step_not_running (ctx : JSCtx) (s : RState) (h : s.running = false) :
    step ctx s = .ok (false, s) := by
  simp [step, h]

/-- step with no statement at the current pc exits the run. -/
theorem step_no_stmt (ctx : JSCtx) (s : RState) (h : s.running = true)
    (hs : s.allstmts[s.curpc]? = none) :
    step ctx s = .ok (false, { s with running := false, exited := true }) := by
  simp [step, h, hs]

/-- step with a statement present: advance curpc, compile (memoized),
execute, return the post-execution running flag. -/
theorem step_some (ctx : JSCtx) (s : RState) (stmt : Stmt) (h : s.running = true)
    (hs : s.allstmts[s.curpc]? = some stmt) :
    step ctx s =
      (match executeStmt ctx stmt
          (compileStatement s.curpc stmt { s with curpc := s.curpc + 1 }) with
       | .ok s3 => .ok (s3.running, s3)
       | .error e => .error e) := by
  simp [step, h, hs]

/-- The NEXT closure semantics, fully evaluated for numeric loop data. -/
theorem nextForLoop_spec : ∀ (ctx : JSCtx) (s : RState) (fl : ForEntry)
    (rest : List ForEntry) (v stp tg : ℚ) (nm : Option String),
    s.forLoops = fl :: rest →
    fl.step = .num stp → fl.targ = .num tg →
    List.lookup fl.forname s.vars = some (.num v) →
    (nm = none ∨ nm = some fl.forname) →
    (((0 ≤ stp ∧ tg < v + stp) ∨ (stp < 0 ∧ v + stp < tg)) →
       nextForLoop ctx nm s =
         .ok { s with vars := setVar s.vars fl.forname (.num (v + stp)),
                      forLoops := rest }) ∧
    (((0 ≤ stp → v + stp ≤ tg) ∧ (stp < 0 → tg ≤ v + stp)) →
       nextForLoop ctx nm s =
         .ok { s with vars := setVar s.vars fl.forname (.num (v + stp)),
                      curpc := fl.pc }) := by
  intro ctx s fl rest v stp tg nm hf hstep htarg hv hnm
  rcases hnm with h | h <;> subst h <;>
  constructor
  · intro hdone
    rcases hdone with ⟨h0, h1⟩ | ⟨h0, h1⟩
    · simp [nextForLoop, hf, hstep, htarg, varOrNaN, hv, jsPlus, jsGeZero,
        jsGtV, jsLtV, h0, h1]
    · simp [nextForLoop, hf, hstep, htarg, varOrNaN, hv, jsPlus, jsGeZero,
        jsGtV, jsLtV, not_le.2 h0, h1]
  · intro hcont
    by_cases h0 : 0 ≤ stp
    · simp [nextForLoop, hf, hstep, htarg, varOrNaN, hv, jsPlus, jsGeZero,
        jsGtV, jsLtV, h0, not_lt.2 (hcont.1 h0)]
    · simp [nextForLoop, hf, hstep, htarg, varOrNaN, hv, jsPlus, jsGeZero,
        jsGtV, jsLtV, h0, not_lt.2 (hcont.2 (not_le.1 h0))]
  · intro hdone
    rcases hdone with ⟨h0, h1⟩ | ⟨h0, h1⟩
    · simp [nextForLoop, hf, hstep, htarg, varOrNaN, hv, jsPlus, jsGeZero,
        jsGtV, jsLtV, h0, h1]
    · simp [nextForLoop, hf, hstep, htarg, varOrNaN, hv, jsPlus, jsGeZero,
        jsGtV, jsLtV, not_le.2 h0, h1]
  · intro hcont
    by_cases h0 : 0 ≤ stp
    · simp [nextForLoop, hf, hstep, htarg, varOrNaN, hv, jsPlus, jsGeZero,
        jsGtV, jsLtV, h0, not_lt.2 (hcont.1 h0)]
    · simp [nextForLoop, hf, hstep, htarg, varOrNaN, hv, jsPlus, jsGeZero,
        jsGtV, jsLtV, h0, not_lt.2 (hcont.2 (not_le.1 h0))]

/-- The INPUT continuation performs every assignment and returns the
accumulated validity flag, leaving all other state fields untouched. -/
theorem inputAssigns_ok : ∀ (ctx : JSCtx) (args : List IndOp) (vals : List String)
    (idx : ℕ) (acc : Bool) (s : RState),
    (∀ a ∈ args, a.args = none) →
    ∃ w, inputAssigns ctx args vals idx acc s =
      .ok (acc && inputAllValid ctx args vals idx, { s with vars := w }) := by
  intro ctx args
  induction args with
  | nil =>
      intro vals idx acc s _
      exact ⟨s.vars, by simp [inputAssigns, inputAllValid]⟩
  | cons a rest ih =>
      intro vals idx acc s h
      have ha : a.args = none := h a (List.mem_cons_self a rest)
      obtain ⟨w, hw⟩ := ih vals (idx + 1)
        (acc && isValidV (convert ctx a.name (.str ((vals[idx]?).getD "undefined"))))
        { s with
          vars := setVar s.vars a.name (convert ctx a.name (.str ((vals[idx]?).getD "undefined"))) }
        (fun x hx => h x (List.mem_cons_of_mem a hx))
      refine ⟨w, ?_⟩
      simp only [inputAssigns, ha, inputAllValid]
      rw [hw]
      simp [Bool.and_assoc]

/-- When some supplied INPUT value fails coercion, the continuation
rewinds curpc by one and resumes without an error. -/
theorem resolveInput_invalid : ∀ (ctx : JSCtx) (args : List IndOp)
    (vals : List String) (s : RState),
    (∀ a ∈ args, a.args = none) →
    inputAllValid ctx args vals 0 = false →
    ∃ w, resolveInput ctx args vals s =
      .ok { s with vars := w, curpc := s.curpc - 1, running := true } := by
  intro ctx args vals s h hinv
  obtain ⟨w, hw⟩ := inputAssigns_ok ctx args vals 0 true s h
  refine ⟨w, ?_⟩
  simp [resolveInput, hw, hinv]

/-- Executing an INPUT statement suspends the run (running goes false)
and logs one request on the input collaborator hook. -/
theorem input_step_suspends : ∀ (ctx : JSCtx) (s : RState) (pv : Value)
    (args : List IndOp),
    s.running = true →
    s.allstmts[s.curpc]? = some (.sINPUT (.lit pv) args) →
    ∃ cs, step ctx s = .ok (false,
      { s with curpc := s.curpc + 1, compiled := cs, running := false,
               inputRequests := s.inputRequests ++ [(jsToStr ctx pv, args.length)] }) := by
  intro ctx s pv args hr hs
  rw [step_some ctx s _ hr hs]
  by_cases hc : s.curpc ∈ s.compiled
  · exact ⟨s.compiled, by simp [executeStmt, evalExpr, compileStatement, hc]⟩
  · exact ⟨s.curpc :: s.compiled, by simp [executeStmt, evalExpr, compileStatement, hc]⟩

/- ===== claim theorems ===== -/

/-- Claim C1 (refuted by the code; the spec is the clear intent): the
reset of the DATA cursor happens during the memoized compilation of the
RESTORE statement, not in its cached closure, so only the first execution
of a given RESTORE statement instance resets the cursor.  In the program
DATA 1,2,3 / READ A / RESTORE / READ B / GOTO (the RESTORE line):
after the first RESTORE the next READ yields 1 (steps 1-3), but when the
loop re-executes the same RESTORE instance (step 5) the cursor stays at 1
and the following READ yields 2, not the first datum again. -/
theorem c1_restore_second_execution_noop :
    obsVar (stepN ctx0 3 st1) "B" = some (.num 1) ∧
    obsDataptr (stepN ctx0 5 st1) = some 1 ∧
    obsVar (stepN ctx0 6 st1) "B" = some (.num 2) ∧
    obsVar (stepN ctx0 6 st1) "B" ≠ some (.num 1) := by decide

/-- Claim C3, counterexample to the rewind target: in
LET S=0 / FOR I=1 TO 3 / LET S=S*10+I / NEXT I (pcs 0..3), after the
first non-final NEXT (4 steps) the loop is still active and curpc is 2,
the statement after the FOR, not 1, the FOR statement itself. -/
theorem c3_counterexample :
    obsPC (stepN ctx0 4 st3) = some 2 ∧
    st3.allstmts[1]? = some (.sFOR ⟨"I", none⟩ (.lit (.num 1)) (.lit (.num 3)) none) ∧
    obsForDepth (stepN ctx0 4 st3) = some 1 ∧
    obsPC (stepN ctx0 4 st3) ≠ some 1 :=
  ⟨by decide, rfl, by decide, by decide⟩

/-- Claim C3 as amended: NEXT adds the step to the loop variable and pops
the loop exactly when the new value passes the target (strictly greater
for non-negative step, strictly less for negative step); otherwise it
rewinds curpc to the pc saved when the FOR executed, which is the pc of
the statement immediately after the FOR (the pc had already been
advanced).  Concretely, FOR I=1 TO 3 with body LET S=S*10+I runs the body
exactly 3 times with I = 1,2,3 in order (S ends as 123), then falls
through with I = 4, curpc past the NEXT and the loop stack empty. -/
theorem c3_for_next_semantics :
    (∀ (ctx : JSCtx) (s : RState) (fl : ForEntry)
      (rest : List ForEntry) (v stp tg : ℚ) (nm : Option String),
      s.forLoops = fl :: rest →
      fl.step = .num stp → fl.targ = .num tg →
      List.lookup fl.forname s.vars = some (.num v) →
      (nm = none ∨ nm = some fl.forname) →
      (((0 ≤ stp ∧ tg < v + stp) ∨ (stp < 0 ∧ v + stp < tg)) →
         nextForLoop ctx nm s =
           .ok { s with vars := setVar s.vars fl.forname (.num (v + stp)),
                        forLoops := rest }) ∧
      (((0 ≤ stp → v + stp ≤ tg) ∧ (stp < 0 → tg ≤ v + stp)) →
         nextForLoop ctx nm s =
           .ok { s with vars := setVar s.vars fl.forname (.num (v + stp)),
                        curpc := fl.pc })) ∧
    obsVar (stepN ctx0 8 st3) "S" = some (.num 123) ∧
    obsVar (stepN ctx0 8 st3) "I" = some (.num 4) ∧
    obsPC (stepN ctx0 8 st3) = some 4 ∧
    obsForDepth (stepN ctx0 8 st3) = some 0 := by
  exact ⟨nextForLoop_spec, by decide, by decide, by decide, by decide⟩

/-- Witness for C3: a state whose innermost loop is FOR I (saved pc 2,
target 3, step 1) with I = 1; NEXT I does not pop and rewinds curpc to 2. -/
theorem c3_witness :
    nextForLoop ctx0 (some "I")
      { initState [] [] [] with forLoops := [⟨"I", 2, .num 3, .num 1⟩],
                                vars := [("I", .num 1)] } =
      .ok { initState [] [] [] with
              forLoops := [⟨"I", 2, .num 3, .num 1⟩],
              vars := setVar [("I", .num 1)] "I" (.num (1 + 1)),
              curpc := 2 } := by
  exact (c3_for_next_semantics.1 ctx0 _ ⟨"I", 2, .num 3, .num 1⟩ [] 1 1 3
    (some "I") rfl rfl rfl (by decide) (Or.inr rfl)).2 (by norm_num)

/-- Claim C4, counterexample to the as-stated return condition: at an
INPUT statement the runtime is running and a statement is present, yet
step returns false (the statement suspended the run). -/
theorem c4_counterexample :
    st4.running = true ∧ (st4.allstmts[st4.curpc]?).isSome = true ∧
    obsStepBool (step ctx0 st4) = some false := by decide

/-- Claim C4 as amended: step returns false exactly when the runtime is
not running on entry, when there is no statement at the current pc (and
then it marks the run exited), or when executing the statement left the
runtime not running (suspension or halt) - equivalently, it returns the
post-execution running flag.  When a statement is present, curpc is
incremented by one before the statement executes, and compilation is
memoized: a statement index already in the compiled set is not compiled
again (compileStatement changes nothing), while a fresh one is marked
compiled. -/
theorem c4_step_semantics :
    (∀ (ctx : JSCtx) (s : RState), s.running = false →
      step ctx s = .ok (false, s)) ∧
    (∀ (ctx : JSCtx) (s : RState), s.running = true →
      s.allstmts[s.curpc]? = none →
      step ctx s = .ok (false, { s with running := false, exited := true })) ∧
    (∀ (ctx : JSCtx) (s : RState) (stmt : Stmt), s.running = true →
      s.allstmts[s.curpc]? = some stmt →
      step ctx s =
        (match executeStmt ctx stmt
            (compileStatement s.curpc stmt { s with curpc := s.curpc + 1 }) with
         | .ok s3 => .ok (s3.running, s3)
         | .error e => .error e)) ∧
    (∀ (pc : ℕ) (stmt : Stmt) (s : RState), pc ∈ s.compiled →
      compileStatement pc stmt s = s) ∧
    (∀ (pc : ℕ) (stmt : Stmt) (s : RState),
      pc ∈ (compileStatement pc stmt s).compiled) ∧
    (∀ (ctx : JSCtx) (s : RState) (b : Bool) (s' : RState),
      step ctx s = .ok (b, s') → b = s'.running) := by
  refine ⟨step_not_running, step_no_stmt, step_some, ?_, ?_, ?_⟩
  · intro pc stmt s h; simp [compileStatement, h]
  · intro pc stmt s
    by_cases h : pc ∈ s.compiled
    · simp [compileStatement, h]
    · cases stmt <;> simp [compileStatement, h]
  · intro ctx s b s' h
    by_cases hr : s.running = false
    · rw [step_not_running ctx s hr] at h
      simp only [Except.ok.injEq, Prod.mk.injEq] at h
      obtain ⟨hb, hss⟩ := h
      subst hb; subst hss; exact hr.symm
    · rw [Bool.not_eq_false] at hr
      cases hs : s.allstmts[s.curpc]? with
      | none =>
          rw [step_no_stmt ctx s hr hs] at h
          simp only [Except.ok.injEq, Prod.mk.injEq] at h
          obtain ⟨hb, hss⟩ := h
          subst hb; subst hss; rfl
      | some stmt =>
          rw [step_some ctx s stmt hr hs] at h
          cases he : executeStmt ctx stmt
              (compileStatement s.curpc stmt { s with curpc := s.curpc + 1 }) with
          | ok s3 =>
              rw [he] at h
              simp only [Except.ok.injEq, Prod.mk.injEq] at h
              obtain ⟨hb, hss⟩ := h
              subst hb; subst hss; rfl
          | error e => rw [he] at h; cases h

/-- Witness for C4: step on a stopped runtime returns false without
touching the state. -/
theorem c4_witness :
    step ctx0 { st4 with running := false } = .ok (false, { st4 with running := false }) :=
  c4_step_semantics.1 ctx0 { st4 with running := false } rfl

/-- Claim C5: when any supplied INPUT value fails coercion to its target
variable type, the continuation rewinds curpc by one (back to the INPUT
statement, whose execution had advanced it by one) and sets running back
on, with no error; and a step at an INPUT statement suspends the run
while issuing exactly one prompt request, so the rewound pc makes the
next step issue the prompt again. -/
theorem c5_input_retry :
    (∀ (ctx : JSCtx) (args : List IndOp) (vals : List String) (s : RState),
      (∀ a ∈ args, a.args = none) →
      inputAllValid ctx args vals 0 = false →
      ∃ w, resolveInput ctx args vals s =
        .ok { s with vars := w, curpc := s.curpc - 1, running := true }) ∧
    (∀ (ctx : JSCtx) (s : RState) (pv : Value) (args : List IndOp),
      s.running = true →
      s.allstmts[s.curpc]? = some (.sINPUT (.lit pv) args) →
      ∃ cs, step ctx s = .ok (false,
        { s with curpc := s.curpc + 1, compiled := cs, running := false,
                 inputRequests := s.inputRequests ++ [(jsToStr ctx pv, args.length)] })) :=
  ⟨resolveInput_invalid, input_step_suspends⟩

/-- Witness for C5: the text value X fails coercion into the numeric
variable A, so the continuation rewinds curpc; and the INPUT statement of
st4 suspends while logging one prompt request. -/
theorem c5_witness :
    (∃ w, resolveInput ctx0 [⟨"A", none⟩] ["X"] st4 =
       .ok { st4 with vars := w, curpc := st4.curpc - 1, running := true }) ∧
    (∃ cs, step ctx0 st4 = .ok (false,
       { st4 with curpc := st4.curpc + 1, compiled := cs, running := false,
                  inputRequests := st4.inputRequests ++ [(jsToStr ctx0 (.str "?"), 1)] })) := by
  constructor
  · exact c5_input_retry.1 ctx0 [⟨"A", none⟩] ["X"] st4
      (by intro a ha; simp at ha; subst ha; rfl) (by decide)
  · exact c5_input_retry.2 ctx0 st4 (.str "?") [⟨"A", none⟩] (by decide) rfl

/-- Claim C8: a FOR statement evaluates its bounds, performs the initial
assignment and pushes the loop entry without any test of the target, so
the body is always entered at least once; concretely, FOR I=5 TO 1 with
body LET C=C+1 executes the body exactly once (C ends at 1, I at 6, the
loop popped at the first NEXT). -/
theorem c8_for_body_at_least_once :
    (∀ (ctx : JSCtx) (s : RState) (nm : String) (i tg p : ℚ),
      executeStmt ctx (.sFOR ⟨nm, none⟩ (.lit (.num i)) (.lit (.num tg))
          (some (.lit (.num p)))) s =
        .ok { s with vars := setVar s.vars nm (.num i),
                     forLoops := ⟨nm, s.curpc, .num tg,
                       if p = 0 then Value.num 1 else .num p⟩ :: s.forLoops }) ∧
    (∀ (ctx : JSCtx) (s : RState) (nm : String) (i tg : ℚ),
      executeStmt ctx (.sFOR ⟨nm, none⟩ (.lit (.num i)) (.lit (.num tg)) none) s =
        .ok { s with vars := setVar s.vars nm (.num i),
                     forLoops := ⟨nm, s.curpc, .num tg, Value.num 1⟩ :: s.forLoops }) ∧
    obsVar (stepN ctx0 4 st8) "C" = some (.num 1) ∧
    obsVar (stepN ctx0 4 st8) "I" = some (.num 6) ∧
    obsForDepth (stepN ctx0 4 st8) = some 0 ∧
    obsPC (stepN ctx0 4 st8) = some 4 := by
  refine ⟨?_, ?_, by decide, by decide, by decide, by decide⟩
  · intro ctx s nm i tg p
    by_cases hp : p = 0 <;>
      simp [executeStmt, evalExpr, startForLoop, jsFalsy, hp]
  · intro ctx s nm i tg
    simp [executeStmt, evalExpr, startForLoop]

/-- Claim C9: a GOSUB to a label missing from the label table pushes the
current pc onto the return stack first and only then raises the fatal
missing-label error, so the state carried by the error has a return stack
one entry deeper than before (and curpc decremented by runtimeError). -/
theorem c9_gosub_pushes_before_error :
    ∀ (ctx : JSCtx) (s : RState) (lab : String),
    List.lookup lab s.label2pc = none →
    executeStmt ctx (.sGOSUB (.lit (.str lab))) s =
      .error ("I tried to go to the label " ++ lab ++ " but could not find it.",
        { s with returnStack := s.curpc :: s.returnStack, curpc := s.curpc - 1 }) ∧
    (s.curpc :: s.returnStack).length = s.returnStack.length + 1 := by
  intro ctx s lab h
  constructor
  · simp [executeStmt, evalExpr, gosubLabel, gotoLabel, h, runtimeErrorE]
  · simp

/-- Witness for C9: GOSUB 99 with an empty label table errors with the
pc pushed. -/
theorem c9_witness :
    executeStmt ctx0 (.sGOSUB (.lit (.str "99"))) st9 =
      .error ("I tried to go to the label " ++ "99" ++ " but could not find it.",
        { st9 with returnStack := st9.curpc :: st9.returnStack,
                   curpc := st9.curpc - 1 }) :=
  (c9_gosub_pushes_before_error ctx0 st9 "99" (by decide)).1

/-- Claim C10: FIX returns x minus the floor of x, the always
non-negative fractional part below 1; FIX(2.5) = 0.5 and FIX(-2.5) = 0.5,
not the truncation-toward-zero fractional part -0.5. -/
theorem c10_fix_fractional :
    (∀ x : ℚ, FIX x = .ok (x - (⌊x⌋ : ℚ)) ∧
      0 ≤ x - (⌊x⌋ : ℚ) ∧ x - (⌊x⌋ : ℚ) < 1) ∧
    FIX (5/2) = .ok (1/2) ∧ FIX (-(5/2)) = .ok (1/2) ∧
    FIX (-(5/2)) ≠ .ok (-(1/2)) := by
  have h1 : ⌊(5:ℚ)/2⌋ = 2 := by norm_num [Int.floor_eq_iff]
  have h2 : ⌊-((5:ℚ)/2)⌋ = -3 := by norm_num [Int.floor_eq_iff]
  refine ⟨fun x => ⟨rfl, sub_nonneg.2 (Int.floor_le x), ?_⟩, ?_, ?_, ?_⟩
  · have h := Int.lt_floor_add_one x
    push_cast at h
    linarith
  · simp only [FIX, checkNumQ, h1]
    norm_num
  · simp only [FIX, checkNumQ, h2]
    norm_num
  · simp only [FIX, checkNumQ, h2, ne_eq, Except.ok.injEq]
    norm_num

/-- Claim C6: the numeric print format uppercases the default
representation, engages the precision-reduction loop (starting at 11
significant digits) only when the representation exceeds 11 characters,
drops a leading zero before the decimal point (also after a minus sign),
prepends one space for non-negative representations and none for
negative ones, and always appends a trailing space; in particular 3.14
formats as " 3.14 " and -3.14 as "-3.14 ". -/
theorem c6_number_format :
    (∀ tp : ℕ → String, valueToStringNum "3.14" tp = " 3.14 ") ∧
    (∀ tp : ℕ → String, valueToStringNum "-3.14" tp = "-3.14 ") ∧
    (∀ tp : ℕ → String, valueToStringNum "0.5" tp = " .5 ") ∧
    (∀ tp : ℕ → String, valueToStringNum "-0.5" tp = "-.5 ") ∧
    (∀ tp : ℕ → String, valueToStringNum "1e+21" tp = " 1E+21 ") ∧
    (∀ (tp tp' : ℕ → String) (s : String), strLen (jsUpper s) ≤ 11 →
      valueToStringNum s tp = valueToStringNum s tp') ∧
    (∀ (tp : ℕ → String) (s : String), strLen (jsUpper s) > 11 →
      valueToStringNum s tp = formatTrimmed (trimPrec tp 10 (tp 11))) ∧
    (∀ (tp : ℕ → String) (s : String), ∃ t, valueToStringNum s tp = t ++ " ") := by
  refine ⟨fun _ => rfl, fun _ => rfl, fun _ => rfl, fun _ => rfl, fun _ => rfl,
    ?_, ?_, ?_⟩
  · intro tp tp' s h
    simp [valueToStringNum, trimPrec, Nat.not_lt.2 h]
  · intro tp s h
    simp [valueToStringNum, trimPrec, h]
  · intro tp s
    simp only [valueToStringNum, formatTrimmed]
    repeat' split
    all_goals exact ⟨_, rfl⟩

/-- Witness for C6: with a toPrecision stub, 3.14 prints as " 3.14 ",
the trim loop is not engaged on short representations, and the trailing
space is present. -/
theorem c6_witness :
    valueToStringNum "3.14" (fun _ => "") = " 3.14 " ∧
    valueToStringNum "3.14" (fun _ => "") = valueToStringNum "3.14" (fun _ => "X") ∧
    (∃ t, valueToStringNum "3.14" (fun _ => "") = t ++ " ") := by
  refine ⟨c6_number_format.1 _, ?_, ?_⟩
  · exact c6_number_format.2.2.2.2.2.1 (fun _ => "") (fun _ => "X") "3.14" (by decide)
  · exact c6_number_format.2.2.2.2.2.2.2 (fun _ => "") "3.14"

/- ===== label-table invariants of the parser ===== -/

theorem pleq_pure (a : α) : PLabelsEq (pure a : PM α) := fun _ => rfl

theorem pleq_bind {m : PM α} {f : α → PM β} (hm : PLabelsEq m)
    (hf : ∀ a, PLabelsEq (f a)) : PLabelsEq (Bind.bind m f) := by
  intro s
  show (resPS (PM.bind m f s)).labels = s.labels
  unfold PM.bind
  cases hms : m s with
  | ok a s1 =>
      have h1 : s1.labels = s.labels := by
        have := hm s; rw [hms] at this; exact this
      rw [← h1]
      exact hf a s1
  | err e s1 =>
      have := hm s; rw [hms] at this; exact this

theorem pleq_ite (c : Prop) [Decidable c] {t e : PM α} (ht : PLabelsEq t)
    (he : PLabelsEq e) : PLabelsEq (if c then t else e) := by
  by_cases h : c
  · simpa [h] using ht
  · simpa [h] using he

theorem pleq_getPS : PLabelsEq getPS := fun _ => rfl

theorem pleq_modify (f : PState → PState) (hf : ∀ s, (f s).labels = s.labels) :
    PLabelsEq (modifyPS f) := fun s => hf s

theorem pleq_consume : PLabelsEq consumeToken := by
  intro s
  unfold consumeToken
  cases htk : s.tokens <;> simp [htk, resPS]

theorem pleq_peek : PLabelsEq peekToken := fun _ => rfl

theorem pleq_pushback (t : Token) : PLabelsEq (pushbackToken t) := fun _ => rfl

theorem pleq_err (msg : String) : PLabelsEq (compileErrorP msg : PM α) := fun _ => rfl

theorem pleq_dialect (w : String) : PLabelsEq (dialectErrorP w : PM α) := fun _ => rfl

theorem pleq_outOfFuel : PLabelsEq (outOfFuel : PM α) := fun _ => rfl

theorem pleq_expect (str : String) : PLabelsEq (expectToken str) :=
  pleq_bind pleq_consume (fun tok => pleq_ite _ (pleq_err _) (pleq_pure tok))

theorem pleq_parseNumber (str : String) : PLabelsEq (parseNumberP str) := by
  intro s
  unfold parseNumberP
  repeat' split
  all_goals rfl

theorem pleq_parseLabel : PLabelsEq parseLabelP := by
  unfold parseLabelP
  apply pleq_bind pleq_consume
  intro tok
  rcases tok with ⟨str, ty⟩
  cases ty
  case Int =>
      exact pleq_bind (pleq_modify _ (fun _ => rfl)) (fun _ => pleq_pure _)
  all_goals exact pleq_err _

/-- All seven expression-parser routines preserve the label table, at
every fuel. -/
theorem pleq_eparse : ∀ fuel : ℕ,
    PLabelsEq (eparseAt fuel).primary ∧
    (∀ l mp, PLabelsEq ((eparseAt fuel).expr1 l mp)) ∧
    (∀ r p, PLabelsEq ((eparseAt fuel).inner r p)) ∧
    PLabelsEq (eparseAt fuel).expr ∧
    PLabelsEq (eparseAt fuel).exprList ∧
    PLabelsEq (eparseAt fuel).varOrIndexed ∧
    PLabelsEq (eparseAt fuel).lexprList := by
  intro fuel
  induction fuel with
  | zero =>
      refine ⟨pleq_outOfFuel, fun _ _ => pleq_outOfFuel, fun _ _ => pleq_outOfFuel,
        pleq_outOfFuel, pleq_outOfFuel, pleq_outOfFuel, pleq_outOfFuel⟩
  | succ n ih =>
      obtain ⟨ihP, ihE1, ihIn, ihE, ihEL, ihV, ihLL⟩ := ih
      refine ⟨?_, ?_, ?_, ?_, ?_, ?_, ?_⟩
      · show PLabelsEq (eparseAt (n + 1)).primary
        simp only [eparseAt]
        apply pleq_bind pleq_consume
        intro tok
        rcases tok with ⟨str, ty⟩
        cases ty
        case Int => exact pleq_bind (pleq_parseNumber _) (fun _ => pleq_pure _)
        case Float1 => exact pleq_bind (pleq_parseNumber _) (fun _ => pleq_pure _)
        case Float2 => exact pleq_bind (pleq_parseNumber _) (fun _ => pleq_pure _)
        case String => exact pleq_pure _
        case Ident =>
            apply pleq_ite
            · exact pleq_bind ihP (fun _ => pleq_pure _)
            · exact pleq_bind (pleq_pushback _)
                (fun _ => pleq_bind ihV (fun _ => pleq_pure _))
        case Operator =>
            apply pleq_ite
            · exact pleq_bind ihE
                (fun _ => pleq_bind (pleq_expect _) (fun _ => pleq_pure _))
            · apply pleq_ite
              · exact pleq_bind ihP (fun _ => pleq_pure _)
              · exact pleq_ite _ ihP (pleq_err _)
        case EOL => exact pleq_err _
        case Remark => exact pleq_err _
        case Relational => exact pleq_err _
        case CatchAll => exact pleq_err _
      · show ∀ l mp, PLabelsEq ((eparseAt (n + 1)).expr1 l mp)
        intro l mp
        simp only [eparseAt]
        apply pleq_bind pleq_peek
        intro look
        apply pleq_ite
        · apply pleq_bind pleq_consume
          intro op
          apply pleq_bind pleq_getPS
          intro s0
          apply pleq_bind
          · cases s0.opts.validOperators with
            | some vops => exact pleq_ite _ (pleq_pure _) (pleq_dialect _)
            | none => exact pleq_pure _
          · intro _
            exact pleq_bind ihP (fun r0 => pleq_bind (ihIn r0 _) (fun r => ihE1 _ _))
        · exact pleq_pure _
      · show ∀ r p, PLabelsEq ((eparseAt (n + 1)).inner r p)
        intro r p
        simp only [eparseAt]
        apply pleq_bind pleq_peek
        intro look
        apply pleq_ite
        · exact pleq_bind (ihE1 _ _) (fun r1 => ihIn r1 _)
        · exact pleq_pure _
      · show PLabelsEq (eparseAt (n + 1)).expr
        simp only [eparseAt]
        exact pleq_bind ihP (fun p => ihE1 p 0)
      · show PLabelsEq (eparseAt (n + 1)).exprList
        simp only [eparseAt]
        apply pleq_bind ihE
        intro el
        apply pleq_bind pleq_consume
        intro sep
        apply pleq_ite
        · exact pleq_bind ihEL (fun _ => pleq_pure _)
        · exact pleq_bind (pleq_pushback _) (fun _ => pleq_pure _)
      · show PLabelsEq (eparseAt (n + 1)).varOrIndexed
        simp only [eparseAt]
        apply pleq_bind pleq_consume
        intro tok
        rcases tok with ⟨str, ty⟩
        cases ty
        case Ident =>
            apply pleq_bind pleq_peek
            intro p
            apply pleq_ite
            · exact pleq_bind (pleq_expect _)
                (fun _ => pleq_bind ihEL
                  (fun _ => pleq_bind (pleq_expect _) (fun _ => pleq_pure _)))
            · exact pleq_pure _
        all_goals exact pleq_err _
      · show PLabelsEq (eparseAt (n + 1)).lexprList
        simp only [eparseAt]
        apply pleq_bind ihV
        intro el
        apply pleq_bind pleq_consume
        intro sep
        apply pleq_ite
        · exact pleq_bind ihLL (fun _ => pleq_pure _)
        · exact pleq_bind (pleq_pushback _) (fun _ => pleq_pure _)

theorem pleq_skipRem : ∀ fuel, PLabelsEq (skipRemF fuel) := by
  intro fuel
  induction fuel with
  | zero => exact pleq_outOfFuel
  | succ n ih =>
      show PLabelsEq (skipRemF (n + 1))
      simp only [skipRemF]
      exact pleq_bind pleq_consume (fun t => pleq_ite _ (pleq_pure _) ih)

theorem pleq_stmtLET (fuel : ℕ) : PLabelsEq (stmtLET fuel) := by
  unfold stmtLET parseVarOrIndexedF parseExprF
  exact pleq_bind (pleq_eparse fuel).2.2.2.2.2.1
    (fun _ => pleq_bind (pleq_expect _)
      (fun _ => pleq_bind (pleq_eparse fuel).2.2.2.1 (fun _ => pleq_pure _)))

theorem pleq_stmtFOR (fuel : ℕ) : PLabelsEq (stmtFOR fuel) := by
  unfold stmtFOR parseVarOrIndexedF parseExprF
  apply pleq_bind (pleq_eparse fuel).2.2.2.2.2.1
  intro lexpr
  apply pleq_bind (pleq_expect _)
  intro _
  apply pleq_bind (pleq_eparse fuel).2.2.2.1
  intro init
  apply pleq_bind (pleq_expect _)
  intro _
  apply pleq_bind (pleq_eparse fuel).2.2.2.1
  intro targ
  apply pleq_bind pleq_peek
  intro p
  apply pleq_ite
  · exact pleq_bind pleq_consume
      (fun _ => pleq_bind (pleq_eparse fuel).2.2.2.1 (fun _ => pleq_pure _))
  · exact pleq_pure _

theorem pleq_stmtNEXT (fuel : ℕ) : PLabelsEq (stmtNEXT fuel) := by
  unfold stmtNEXT parseExprF
  apply pleq_bind pleq_peek
  intro p
  apply pleq_ite
  · exact pleq_pure _
  · exact pleq_bind (pleq_eparse fuel).2.2.2.1 (fun _ => pleq_pure _)

theorem pleq_promptString (prompt : Token) : PLabelsEq (promptString prompt) := by
  unfold promptString
  apply pleq_ite
  · exact pleq_bind (pleq_expect _) (fun _ => pleq_pure _)
  · exact pleq_bind (pleq_pushback _) (fun _ => pleq_pure _)

theorem pleq_stmtINPUT (fuel : ℕ) : PLabelsEq (stmtINPUT fuel) := by
  unfold stmtINPUT parseLexprListF
  apply pleq_bind pleq_consume
  intro prompt
  apply pleq_bind (pleq_promptString prompt)
  intro _
  exact pleq_bind (pleq_eparse fuel).2.2.2.2.2.2 (fun _ => pleq_pure _)

theorem pleq_dispatch (fuel : ℕ) (cmd : String) (fn : PM Stmt)
    (h : dispatchStmt fuel cmd = some fn) : PLabelsEq fn := by
  unfold dispatchStmt at h
  by_cases hc : cmd = "LET"
  · rw [if_pos hc] at h
    injection h with h
    subst h
    exact pleq_stmtLET fuel
  · rw [if_neg hc] at h
    by_cases hc : cmd = "GOTO"
    · rw [if_pos hc] at h
      injection h with h
      subst h
      exact pleq_bind pleq_parseLabel (fun _ => pleq_pure _)
    · rw [if_neg hc] at h
      by_cases hc : cmd = "GOSUB"
      · rw [if_pos hc] at h
        injection h with h
        subst h
        exact pleq_bind pleq_parseLabel (fun _ => pleq_pure _)
      · rw [if_neg hc] at h
        by_cases hc : cmd = "FOR"
        · rw [if_pos hc] at h
          injection h with h
          subst h
          exact pleq_stmtFOR fuel
        · rw [if_neg hc] at h
          by_cases hc : cmd = "NEXT"
          · rw [if_pos hc] at h
            injection h with h
            subst h
            exact pleq_stmtNEXT fuel
          · rw [if_neg hc] at h
            by_cases hc : cmd = "READ"
            · rw [if_pos hc] at h
              injection h with h
              subst h
              unfold stmtREAD parseLexprListF
              exact pleq_bind (pleq_eparse fuel).2.2.2.2.2.2 (fun _ => pleq_pure _)
            · rw [if_neg hc] at h
              by_cases hc : cmd = "DATA"
              · rw [if_pos hc] at h
                injection h with h
                subst h
                unfold stmtDATA parseExprListF
                exact pleq_bind (pleq_eparse fuel).2.2.2.2.1 (fun _ => pleq_pure _)
              · rw [if_neg hc] at h
                by_cases hc : cmd = "INPUT"
                · rw [if_pos hc] at h
                  injection h with h
                  subst h
                  exact pleq_stmtINPUT fuel
                · rw [if_neg hc] at h
                  by_cases hc : cmd = "RESTORE"
                  · rw [if_pos hc] at h
                    injection h with h
                    subst h
                    exact pleq_pure _
                  · rw [if_neg hc] at h
                    by_cases hc : cmd = "RETURN"
                    · rw [if_pos hc] at h
                      injection h with h
                      subst h
                      exact pleq_pure _
                    · rw [if_neg hc] at h
                      by_cases hc : cmd = "END"
                      · rw [if_pos hc] at h
                        injection h with h
                        subst h
                        exact pleq_pure _
                      · rw [if_neg hc] at h
                        by_cases hc : cmd = "STOP"
                        · rw [if_pos hc] at h
                          injection h with h
                          subst h
                          exact pleq_pure _
                        · rw [if_neg hc] at h
                          cases h

theorem pleq_foldGo (cmdtok p0 : Token) : PLabelsEq (foldGoCommand cmdtok p0) := by
  unfold foldGoCommand
  apply pleq_ite
  · exact pleq_bind pleq_consume (fun _ => pleq_pure _)
  · apply pleq_ite
    · exact pleq_bind pleq_consume (fun _ => pleq_pure _)
    · exact pleq_pure _

theorem pleq_parseStatement (fuel : ℕ) : PLabelsEq (parseStatementF fuel) := by
  unfold parseStatementF
  apply pleq_bind pleq_consume
  intro cmdtok
  rcases cmdtok with ⟨str, ty⟩
  cases ty
  case Remark =>
      exact pleq_bind pleq_getPS
        (fun s0 => pleq_ite _ (pleq_dialect _) (pleq_pure _))
  case Ident =>
      apply pleq_ite
      · exact pleq_bind (pleq_skipRem fuel) (fun _ => pleq_pure _)
      · apply pleq_bind pleq_peek
        intro p0
        apply pleq_bind (pleq_foldGo _ _)
        intro cmd
        cases hd : dispatchStmt fuel cmd with
        | some fn =>
            apply pleq_bind pleq_getPS
            intro s0
            apply pleq_bind
            · cases s0.opts.validKeywords with
              | some kws => exact pleq_ite _ (pleq_pure _) (pleq_dialect _)
              | none => exact pleq_pure _
            · intro _
              exact pleq_bind (pleq_dispatch fuel cmd fn hd) (fun _ => pleq_pure _)
        | none =>
            apply pleq_bind pleq_peek
            intro p
            apply pleq_ite
            · exact pleq_bind (pleq_pushback _)
                (fun _ => pleq_bind (pleq_stmtLET fuel) (fun _ => pleq_pure _))
            · exact pleq_err _
  all_goals exact pleq_err _

theorem pleq_parseStmtList : ∀ fuel, PLabelsEq (parseStmtListF fuel) := by
  intro fuel
  induction fuel with
  | zero => exact pleq_outOfFuel
  | succ n ih =>
      show PLabelsEq (parseStmtListF (n + 1))
      simp only [parseStmtListF]
      apply pleq_bind (pleq_parseStatement n)
      intro el
      apply pleq_bind pleq_consume
      intro sep
      apply pleq_ite
      · exact pleq_bind ih (fun _ => pleq_pure _)
      · exact pleq_bind (pleq_pushback _) (fun _ => pleq_pure _)

theorem pleq_parseCompound (fuel : ℕ) : PLabelsEq (parseCompoundF fuel) := by
  unfold parseCompoundF
  apply pleq_bind (pleq_parseStmtList fuel)
  intro list
  apply pleq_bind pleq_peek
  intro p
  exact pleq_ite _ (pleq_err _) (pleq_pure _)

/- ===== structural lemmas for the duplicate-label behaviour ===== -/

/-- parseOptLabel at a line starting with an integer token: a duplicate
errors (recording the message, consuming only the label token); a fresh
label is recorded and returned. -/
theorem parseOptLabel_cons (s : PState) (L : String) (rest : List Token)
    (htok : s.tokens = Token.mk L .Int :: rest) :
    parseOptLabelP s =
      (if s.labels.contains L then
        PRes.err (dupMsg L)
          { s with tokens := rest, errors := s.errors ++ [(s.lineno, dupMsg L)] }
      else
        .ok (some L)
          { s with tokens := rest, labels := s.labels ++ [L], curlabel := some L }) := by
  by_cases hL : L ∈ s.labels
  · simp [parseOptLabelP, consumeToken, getPS, modifyPS, Bind.bind, PM.bind,
      htok, hL, compileErrorP, pure, PM.pure, dupMsg]
  · simp [parseOptLabelP, consumeToken, getPS, modifyPS, Bind.bind, PM.bind,
      htok, hL, compileErrorP, pure, PM.pure, dupMsg]

/-- parse() on a line starting with an integer label token. -/
theorem parseLineBody_cons (fuel : ℕ) (s : PState) (L : String) (rest : List Token)
    (htok : s.tokens = Token.mk L .Int :: rest) :
    parseLineBody fuel s =
      (if L ∈ s.labels then
        PRes.err (dupMsg L)
          { s with tokens := rest, errors := s.errors ++ [(s.lineno, dupMsg L)] }
      else
        (Bind.bind (parseCompoundF fuel)
          (fun stmts => Bind.bind (modifyPS (fun s0 => { s0 with curlabel := none }))
            (fun _ => (pure (⟨some L, stmts⟩ : BLine) : PM BLine))))
          { s with tokens := rest, labels := s.labels ++ [L], curlabel := some L }) := by
  by_cases hL : L ∈ s.labels
  · simp [parseLineBody, getPS, Bind.bind, PM.bind, htok, hL,
      parseOptLabel_cons s L rest htok]
  · simp [parseLineBody, getPS, Bind.bind, PM.bind, htok, hL,
      parseOptLabel_cons s L rest htok]

/-- A line re-declaring an already recorded label yields the empty line,
records the duplicate error against the line number, consumes nothing
else of the parser state, and leaves the label table unchanged. -/
theorem parseLineTok_dup (fuel : ℕ) (L : String) (rest : List Token) (s : PState)
    (hL : L ∈ s.labels) :
    parseLineTok fuel (Token.mk L .Int :: rest) s =
      ({ s with tokens := rest, lineno := s.lineno + 1,
                errors := s.errors ++ [(s.lineno + 1, dupMsg L)] }, ⟨none, []⟩) := by
  unfold parseLineTok
  dsimp only
  rw [parseLineBody_cons fuel _ L rest rfl]
  simp [hL]

/-- Any line starting with the integer label token L leaves L recorded
in the label table afterwards, whether the line parses or throws. -/
theorem c7_label_mem (fuel : ℕ) (L : String) (rest : List Token) (s : PState) :
    L ∈ (parseLineTok fuel (Token.mk L .Int :: rest) s).1.labels := by
  by_cases hL : L ∈ s.labels
  · rw [parseLineTok_dup fuel L rest s hL]
    simp [hL]
  · unfold parseLineTok
    dsimp only
    rw [parseLineBody_cons fuel _ L rest rfl]
    simp only [hL]
    rw [if_neg (by simp [hL])]
    have hk : PLabelsEq (Bind.bind (parseCompoundF fuel)
        (fun stmts => Bind.bind (modifyPS (fun s0 => { s0 with curlabel := none }))
          (fun _ => (pure (⟨some L, stmts⟩ : BLine) : PM BLine)))) :=
      pleq_bind (pleq_parseCompound fuel)
        (fun stmts => pleq_bind (pleq_modify _ (fun _ => rfl)) (fun _ => pleq_pure _))
    have hres := hk { s with tokens := rest, lineno := s.lineno + 1, labels := s.labels ++ [L], curlabel := some L }
    split
    next line s2 heq =>
      rw [heq] at hres
      have h2 : s2.labels = s.labels ++ [L] := by simpa [resPS] using hres
      simp [h2]
    next msg s2 heq =>
      rw [heq] at hres
      have h2 : s2.labels = s.labels ++ [L] := by simpa [resPS] using hres
      simp [h2]

/-- The line loop continues after a duplicate-label line: the remaining
lines are parsed from the state holding the recorded error, and the
duplicate line contributes the empty line to the output. -/
theorem parseLinesAcc_dup (fuel : ℕ) (L : String) (rest : List Token)
    (ls : List (List Token)) (s : PState) (hL : L ∈ s.labels) :
    parseLinesAcc fuel ((Token.mk L .Int :: rest) :: ls) s =
      ((parseLinesAcc fuel ls
          { s with tokens := rest, lineno := s.lineno + 1,
                   errors := s.errors ++ [(s.lineno + 1, dupMsg L)] }).1,
        (⟨none, []⟩ : BLine) :: (parseLinesAcc fuel ls
          { s with tokens := rest, lineno := s.lineno + 1,
                   errors := s.errors ++ [(s.lineno + 1, dupMsg L)] }).2) := by
  simp [parseLinesAcc, parseLineTok_dup fuel L rest s hL]

/- ===== claim theorems for the parser ===== -/

/-- Claim C2, counterexample: the expression 2^3^2 parses with the
exponentiations grouped left-to-right, pow(pow(2,3),2), not
pow(2,pow(3,2)) as claimed: the climbing loop recurses on the right
operand only while the lookahead precedence is strictly greater than the
consumed operator precedence, so an equal-precedence tie folds left for
every operator, including the caret. -/
theorem c2_counterexample :
    obsExpr (parseExprTop 32 [tInt "2", tOp "^", tInt "3", tOp "^", tInt "2"]) =
      some (Expr.binop "pow" (Expr.binop "pow" (.lit (.num 2)) (.lit (.num 3)))
        (.lit (.num 2))) ∧
    Expr.binop "pow" (Expr.binop "pow" (.lit (.num 2)) (.lit (.num 3))) (.lit (.num 2)) ≠
      Expr.binop "pow" (.lit (.num 2))
        (Expr.binop "pow" (.lit (.num 3)) (.lit (.num 2))) := by
  refine ⟨rfl, ?_⟩
  intro h
  injection h with h1 h2 h3
  exact absurd h2 (by intro h2; injection h2)

/-- Claim C2 as amended: the precedence-climbing parser folds ties at
equal precedence left-associatively for every operator, including the
caret, so 2^3^2 parses as pow(pow(2,3),2) and 2-3-4 as sub(sub(2,3),4),
while a higher-precedence lookahead binds tighter, so 2+3*4 parses as
add(2, mul(3,4)). -/
theorem c2_pow_left_assoc :
    obsExpr (parseExprTop 32 [tInt "2", tOp "^", tInt "3", tOp "^", tInt "2"]) =
      some (Expr.binop "pow" (Expr.binop "pow" (.lit (.num 2)) (.lit (.num 3)))
        (.lit (.num 2))) ∧
    obsExpr (parseExprTop 32 [tInt "2", tOp "-", tInt "3", tOp "-", tInt "4"]) =
      some (Expr.binop "sub" (Expr.binop "sub" (.lit (.num 2)) (.lit (.num 3)))
        (.lit (.num 4))) ∧
    obsExpr (parseExprTop 32 [tInt "2", tOp "+", tInt "3", tOp "*", tInt "4"]) =
      some (Expr.binop "add" (.lit (.num 2))
        (Expr.binop "mul" (.lit (.num 3)) (.lit (.num 4)))) ∧
    obsExpr (parseExprTop 32
        [tOp "(", tInt "2", tOp "+", tInt "3", tOp ")", tOp "*", tInt "4"]) =
      some (Expr.binop "mul" (Expr.binop "add" (.lit (.num 2)) (.lit (.num 3)))
        (.lit (.num 4))) :=
  ⟨rfl, rfl, rfl, rfl⟩

/-- Claim C7: re-declaring a label already in the label table makes the
parser record the duplicate-label compile error for that line and
produce the empty line (no label, zero statements) for it, while the
following lines are parsed from the resulting state; any line that
declares label L leaves L recorded afterwards.  Concretely, for
10 RESTORE / 10 RETURN / 20 END the parsed program is
[(10, [RESTORE]), (no label, zero statements), (20, [END])] with exactly
the duplicate error recorded against line 2. -/
theorem c7_duplicate_label :
    (∀ (fuel : ℕ) (L : String) (rest : List Token) (s : PState), L ∈ s.labels →
      parseLineTok fuel (Token.mk L .Int :: rest) s =
        ({ s with tokens := rest, lineno := s.lineno + 1,
                  errors := s.errors ++ [(s.lineno + 1, dupMsg L)] }, ⟨none, []⟩)) ∧
    (∀ (fuel : ℕ) (L : String) (rest : List Token) (s : PState),
      L ∈ (parseLineTok fuel (Token.mk L .Int :: rest) s).1.labels) ∧
    (∀ (fuel : ℕ) (L : String) (rest : List Token) (ls : List (List Token))
      (s : PState), L ∈ s.labels →
      parseLinesAcc fuel ((Token.mk L .Int :: rest) :: ls) s =
        ((parseLinesAcc fuel ls
            { s with tokens := rest, lineno := s.lineno + 1,
                     errors := s.errors ++ [(s.lineno + 1, dupMsg L)] }).1,
          (⟨none, []⟩ : BLine) :: (parseLinesAcc fuel ls
            { s with tokens := rest, lineno := s.lineno + 1,
                     errors := s.errors ++ [(s.lineno + 1, dupMsg L)] }).2)) ∧
    obsPLines (parseFileTok 32 progDup pstate0) =
      some [(some "10", [.sRESTORE]), (none, []), (some "20", [.sEND])] ∧
    obsPErrors (parseFileTok 32 progDup pstate0) = [(2, dupMsg "10")] :=
  ⟨fun fuel L rest s hL => parseLineTok_dup fuel L rest s hL,
   c7_label_mem,
   fun fuel L rest ls s hL => parseLinesAcc_dup fuel L rest ls s hL,
   rfl, rfl⟩

/-- Witness for C7: with label 10 already declared, the line
10 RETURN parses to the empty line with the duplicate error recorded. -/
theorem c7_witness :
    parseLineTok 8 (Token.mk "10" .Int :: [tId "RETURN"])
        { pstate0 with labels := ["10"] } =
      ({ { pstate0 with labels := ["10"] } with
           tokens := [tId "RETURN"],
           lineno := { pstate0 with labels := ["10"] }.lineno + 1,
           errors := { pstate0 with labels := ["10"] }.errors ++
             [({ pstate0 with labels := ["10"] }.lineno + 1, dupMsg "10")] },
        ⟨none, []⟩) :=
  c7_duplicate_label.1 8 "10" [tId "RETURN"]
    { pstate0 with labels := ["10"] } (by decide)

end B8W

